import Mathlib

/-!
Shallow embedding of the procurement-recommendation service (src/main.py).

The service is a single-endpoint HTTP handler that
1. validates the inbound JSON body against the ProcurementRequest schema,
2. issues one search query to a search provider and keeps the first five
   organic results as supplier records,
3. builds a fixed-format prompt and issues one chat-completion call,
4. assembles the 200 response, or fails with 404 / 500 / an uncaught error.

The two outbound providers are modelled as oracles (functions from the
request actually issued to an outcome), so every theorem quantifies over
provider behaviour.  Each handler function also returns the outbound calls
it issued, so call-count claims are statable.
-/

set_option autoImplicit false

namespace Procurement

/-- Input schema of the endpoint, from the pydantic model ProcurementRequest
in src/main.py: material_name str, quantity int, location str, budget float.
The budget field is carried opaquely as a Lean Float; no arithmetic is
performed on it anywhere in the program. -/
structure ProcurementRequest where
  material_name : String
  quantity : Int
  location : String
  budget : Float

/-- One organic result of the search provider: the code reads the three
keys title, link and snippet with dict.get, each possibly absent. -/
structure OrganicResult where
  title : Option String
  link : Option String
  snippet : Option String
deriving DecidableEq, Repr

/-- A supplier record as built by get_supplier_data: the same three
possibly-absent fields, copied from one organic result. -/
structure SupplierResult where
  title : Option String
  link : Option String
  snippet : Option String
deriving DecidableEq, Repr

/-- Parameters of the one outbound search call: the query string and the
num parameter (the api_key credential is not modelled). -/
structure SearchCall where
  q : String
  num : Nat
deriving DecidableEq, Repr

/-- Outcome of the outbound search call: either a result dictionary whose
organic_results list is as given (a missing key reads as the empty list via
dict.get), or a raised exception carrying its message text. -/
inductive SearchOutcome where
  | ok (organicResults : List OrganicResult)
  | exn (msg : String)
deriving DecidableEq, Repr

/-- One chat message, a role string plus a content string. -/
structure Message where
  role : String
  content : String
deriving DecidableEq, Repr

/-- Parameters of the one outbound chat-completion call, from the
client.chat.completions.create call in src/main.py. -/
structure CompletionParams where
  model : String
  messages : List Message
  temperature : Float
  maxTokens : Nat

/-- One completion choice; the code reads choices[0].message.content. -/
structure Choice where
  message : Message
deriving DecidableEq, Repr

/-- Outcome of the outbound completion call: a list of choices, or a raised
exception carrying its message text. -/
inductive CompletionOutcome where
  | ok (choices : List Choice)
  | exn (msg : String)
deriving DecidableEq, Repr

/-- A Python-level error leaving the handler: either a structured
HTTPException with a status code and a detail string, or an uncaught
exception that propagates to the framework default error path. -/
inductive PyError where
  | httpException (status : Nat) (detail : String)
  | uncaught (msg : String)
deriving DecidableEq, Repr

/-- The 200 response body assembled by recommend_procurement. -/
structure RecommendationResponse where
  material : String
  location : String
  budget : Float
  recommendation : String
  top_suppliers : List SupplierResult

/-- Outbound calls issued while handling one request. -/
structure Trace where
  searchCalls : List SearchCall
  completionCalls : List CompletionParams

/-- The search call built by get_supplier_data: query string
f-string material + " suppliers in " + location, with num 5. -/
def mkSearchCall (material location : String) : SearchCall :=
  { q := material ++ " suppliers in " ++ location, num := 5 }

/-- Field copy performed inside the loop of get_supplier_data. -/
def toSupplier (r : OrganicResult) : SupplierResult :=
  { title := r.title, link := r.link, snippet := r.snippet }

/-- Embedding of get_supplier_data (src/main.py lines 33-54): one search
call; on success the first five organic results are copied into supplier
records; on a raised exception an HTTPException 500 is raised whose detail
prepends the text SERPAPI error to the original message. -/
def get_supplier_data (provider : SearchCall → SearchOutcome)
    (material location : String) :
    SearchCall × Except PyError (List SupplierResult) :=
  let call := mkSearchCall material location
  (call,
    match provider call with
    | SearchOutcome.ok organic =>
        Except.ok ((organic.take 5).map toSupplier)
    | SearchOutcome.exn e =>
        Except.error (PyError.httpException 500 ("SERPAPI error: " ++ e)))

/-- Python rendering of an optional string inside an f-string: None prints
as the four characters None, a present string prints verbatim. -/
def optStr : Option String → String
  | none => "None"
  | some s => s

/-- One bullet line of the supplier summary, from the list comprehension in
generate_recommendation. -/
def supplierLine (s : SupplierResult) : String :=
  "- " ++ optStr s.title ++ ": " ++ optStr s.link ++ " (" ++ optStr s.snippet ++ ")"

/-- The supplier_summary string: newline-joined bullet lines. -/
def supplierSummary (suppliers : List SupplierResult) : String :=
  String.intercalate ("\n") (suppliers.map supplierLine)

/-- The fixed instruction block that opens the prompt template. -/
def promptHeader : String :=
  "\n    You are an AI procurement strategist for POWERGRID.\n    Analyze the following inputs and recommend a procurement plan.\n"

/-- The fixed four-item requested-output checklist that closes the prompt
template. -/
def promptChecklist : String :=
  "\n    Provide:\n    1. Top 3 suppliers ranked by relevance.\n    2. Recommended order quantity split (if applicable).\n    3. Estimated total cost and delivery timeframe.\n    4. Any risk factors or negotiation suggestions.\n    "

/-- The full prompt f-string of generate_recommendation, line for line from
src/main.py lines 63-80, with the interpolated fields spliced in.  Numbers
are rendered with toString, standing in for the Python str conversion. -/
def promptText (material : String) (quantity : Int) (location : String)
    (budget : Float) (suppliers : List SupplierResult) : String :=
  promptHeader ++
  "\n    Material: " ++ material ++
  "\n    Required Quantity: " ++ toString quantity ++
  "\n    Project Location: " ++ location ++
  "\n    Budget: â‚¹" ++ toString budget ++
  "\n\n    Available supplier data:\n    " ++ supplierSummary suppliers ++
  ("\n" ++ promptChecklist)

/-- The fixed system message of the completion call. -/
def systemMessage : Message :=
  { role := "system", content := "You are an expert AI procurement assistant." }

/-- The completion-call parameters built by generate_recommendation: fixed
model identifier, the fixed system message plus the one user prompt,
temperature 0.7, max_tokens 800. -/
def mkParams (material : String) (quantity : Int) (location : String)
    (budget : Float) (suppliers : List SupplierResult) : CompletionParams :=
  { model := "llama-3.1-8b-instant"
    messages := [systemMessage,
      { role := "user",
        content := promptText material quantity location budget suppliers }]
    temperature := 0.7
    maxTokens := 800 }

/-- Embedding of generate_recommendation (src/main.py lines 58-92): builds
the prompt, issues exactly one completion call, and returns
choices[0].message.content.  No exception is caught here: a raised
exception from the provider propagates as an uncaught error, and an empty
choices list makes the index access choices[0] raise an uncaught
IndexError. -/
def generate_recommendation (provider : CompletionParams → CompletionOutcome)
    (material : String) (quantity : Int) (location : String) (budget : Float)
    (suppliers : List SupplierResult) :
    CompletionParams × Except PyError String :=
  let params := mkParams material quantity location budget suppliers
  (params,
    match provider params with
    | CompletionOutcome.exn e => Except.error (PyError.uncaught e)
    | CompletionOutcome.ok choices =>
        match choices.head? with
        | none => Except.error (PyError.uncaught ("IndexError: list index out of range"))
        | some choice => Except.ok choice.message.content)

/-- Embedding of the endpoint body recommend_procurement (src/main.py
lines 96-116): supplier lookup, the empty-list 404 guard, recommendation
generation, response assembly.  The first component records the outbound
calls actually issued. -/
def recommend_procurement (sp : SearchCall → SearchOutcome)
    (cp : CompletionParams → CompletionOutcome)
    (request : ProcurementRequest) :
    Trace × Except PyError RecommendationResponse :=
  let r := get_supplier_data sp request.material_name request.location
  match r.2 with
  | Except.error e => ({ searchCalls := [r.1], completionCalls := [] }, Except.error e)
  | Except.ok suppliers =>
    if suppliers.isEmpty then
      ({ searchCalls := [r.1], completionCalls := [] },
        Except.error (PyError.httpException 404 ("No suppliers found.")))
    else
      let g := generate_recommendation cp request.material_name
        request.quantity request.location request.budget suppliers
      match g.2 with
      | Except.error e =>
          ({ searchCalls := [r.1], completionCalls := [g.1] }, Except.error e)
      | Except.ok txt =>
          ({ searchCalls := [r.1], completionCalls := [g.1] },
            Except.ok
              { material := request.material_name
                location := request.location
                budget := request.budget
                recommendation := txt
                top_suppliers := suppliers })

/-! Computation lemmas: the value of recommend_procurement on each of the
four provider-outcome shapes. -/

/-- When the search call raises, the handler returns the structured 500 and
issues no completion call. -/
theorem recommend_of_search_exn (sp : SearchCall → SearchOutcome)
    (cp : CompletionParams → CompletionOutcome) (req : ProcurementRequest)
    (e : String)
    (hs : sp (mkSearchCall req.material_name req.location) = SearchOutcome.exn e) :
    recommend_procurement sp cp req =
      ({ searchCalls := [mkSearchCall req.material_name req.location],
         completionCalls := [] },
       Except.error (PyError.httpException 500 ("SERPAPI error: " ++ e))) := by
  simp [recommend_procurement, get_supplier_data, hs]

/-- When the search call returns no organic results, the handler returns
the 404 and issues no completion call. -/
theorem recommend_of_search_nil (sp : SearchCall → SearchOutcome)
    (cp : CompletionParams → CompletionOutcome) (req : ProcurementRequest)
    (hs : sp (mkSearchCall req.material_name req.location) = SearchOutcome.ok []) :
    recommend_procurement sp cp req =
      ({ searchCalls := [mkSearchCall req.material_name req.location],
         completionCalls := [] },
       Except.error (PyError.httpException 404 ("No suppliers found."))) := by
  simp [recommend_procurement, get_supplier_data, hs]

/-- When the search succeeds with at least one organic result and the
completion call returns at least one choice, the handler returns the
assembled 200 response. -/
theorem recommend_of_ok_ok (sp : SearchCall → SearchOutcome)
    (cp : CompletionParams → CompletionOutcome) (req : ProcurementRequest)
    (o : OrganicResult) (os : List OrganicResult) (c : Choice) (cs : List Choice)
    (hs : sp (mkSearchCall req.material_name req.location) = SearchOutcome.ok (o :: os))
    (hc : cp (mkParams req.material_name req.quantity req.location req.budget
        (((o :: os).take 5).map toSupplier)) = CompletionOutcome.ok (c :: cs)) :
    recommend_procurement sp cp req =
      ({ searchCalls := [mkSearchCall req.material_name req.location],
         completionCalls := [mkParams req.material_name req.quantity
           req.location req.budget (((o :: os).take 5).map toSupplier)] },
       Except.ok
         { material := req.material_name
           location := req.location
           budget := req.budget
           recommendation := c.message.content
           top_suppliers := ((o :: os).take 5).map toSupplier }) := by
  simp only [List.take_succ_cons, List.map_cons, List.map_take] at hc
  simp [recommend_procurement, get_supplier_data, generate_recommendation, hs, hc]

/-- When the search succeeds with at least one organic result and the
completion call raises, the error leaves the handler uncaught. -/
theorem recommend_of_ok_exn (sp : SearchCall → SearchOutcome)
    (cp : CompletionParams → CompletionOutcome) (req : ProcurementRequest)
    (o : OrganicResult) (os : List OrganicResult) (e : String)
    (hs : sp (mkSearchCall req.material_name req.location) = SearchOutcome.ok (o :: os))
    (hc : cp (mkParams req.material_name req.quantity req.location req.budget
        (((o :: os).take 5).map toSupplier)) = CompletionOutcome.exn e) :
    recommend_procurement sp cp req =
      ({ searchCalls := [mkSearchCall req.material_name req.location],
         completionCalls := [mkParams req.material_name req.quantity
           req.location req.budget (((o :: os).take 5).map toSupplier)] },
       Except.error (PyError.uncaught e)) := by
  simp only [List.take_succ_cons, List.map_cons, List.map_take] at hc
  simp [recommend_procurement, get_supplier_data, generate_recommendation, hs, hc]

/-- When the completion call returns an empty choices list, the index
access choices[0] raises an uncaught IndexError. -/
theorem recommend_of_ok_nochoice (sp : SearchCall → SearchOutcome)
    (cp : CompletionParams → CompletionOutcome) (req : ProcurementRequest)
    (o : OrganicResult) (os : List OrganicResult)
    (hs : sp (mkSearchCall req.material_name req.location) = SearchOutcome.ok (o :: os))
    (hc : cp (mkParams req.material_name req.quantity req.location req.budget
        (((o :: os).take 5).map toSupplier)) = CompletionOutcome.ok []) :
    recommend_procurement sp cp req =
      ({ searchCalls := [mkSearchCall req.material_name req.location],
         completionCalls := [mkParams req.material_name req.quantity
           req.location req.budget (((o :: os).take 5).map toSupplier)] },
       Except.error (PyError.uncaught ("IndexError: list index out of range"))) := by
  simp only [List.take_succ_cons, List.map_cons, List.map_take] at hc
  simp [recommend_procurement, get_supplier_data, generate_recommendation, hs, hc]

/-- C1: for every valid request where the search provider returns n with
n at least 1 organic results, the 200 response field top_suppliers has
length min 5 n, and for every index i the entry at i carries the title,
link and snippet of the organic result at i, in provider order. -/
theorem claim_C1 (sp : SearchCall → SearchOutcome)
    (cp : CompletionParams → CompletionOutcome) (req : ProcurementRequest)
    (organic : List OrganicResult) (resp : RecommendationResponse)
    (hs : sp (mkSearchCall req.material_name req.location) = SearchOutcome.ok organic)
    (hn : 1 ≤ organic.length)
    (hr : (recommend_procurement sp cp req).2 = Except.ok resp) :
    resp.top_suppliers.length = min 5 organic.length ∧
    ∀ i : Nat, i < resp.top_suppliers.length →
      resp.top_suppliers[i]? = (organic[i]?).map toSupplier := by
  cases organic with
  | nil => simp at hn
  | cons o os =>
    cases hc : cp (mkParams req.material_name req.quantity req.location
        req.budget (((o :: os).take 5).map toSupplier)) with
    | exn e =>
      rw [recommend_of_ok_exn sp cp req o os e hs hc] at hr
      simp at hr
    | ok choices =>
      cases choices with
      | nil =>
        rw [recommend_of_ok_nochoice sp cp req o os hs hc] at hr
        simp at hr
      | cons c cs =>
        rw [recommend_of_ok_ok sp cp req o os c cs hs hc] at hr
        simp only [Except.ok.injEq] at hr
        subst hr
        refine ⟨by simp; omega, ?_⟩
        intro i hi
        have h5 : i < 5 := by
          simp only [List.length_map, List.length_take] at hi
          omega
        show (((o :: os).take 5).map toSupplier)[i]? = ((o :: os)[i]?).map toSupplier
        rw [List.getElem?_map, List.getElem?_take_of_lt h5]

/-- C1 witness: concrete run with two organic results and a succeeding
completion provider. -/
theorem claim_C1_witness :
    ({ material := "steel", location := "Delhi", budget := 3.5,
       recommendation := "pick supplier one",
       top_suppliers := [{ title := some ("S1"), link := some ("l1"), snippet := none },
                         { title := none, link := some ("l2"), snippet := some ("sn2") }]
       : RecommendationResponse }).top_suppliers.length =
      min 5 ([{ title := some ("S1"), link := some ("l1"), snippet := none },
              { title := none, link := some ("l2"), snippet := some ("sn2") }]
             : List OrganicResult).length ∧
    ∀ i : Nat,
      i < ({ material := "steel", location := "Delhi", budget := 3.5,
             recommendation := "pick supplier one",
             top_suppliers := [{ title := some ("S1"), link := some ("l1"), snippet := none },
                               { title := none, link := some ("l2"), snippet := some ("sn2") }]
             : RecommendationResponse }).top_suppliers.length →
      ({ material := "steel", location := "Delhi", budget := 3.5,
         recommendation := "pick supplier one",
         top_suppliers := [{ title := some ("S1"), link := some ("l1"), snippet := none },
                           { title := none, link := some ("l2"), snippet := some ("sn2") }]
         : RecommendationResponse }).top_suppliers[i]? =
        (([{ title := some ("S1"), link := some ("l1"), snippet := none },
            { title := none, link := some ("l2"), snippet := some ("sn2") }]
          : List OrganicResult)[i]?).map toSupplier :=
  claim_C1
    (fun _ => SearchOutcome.ok
      [{ title := some ("S1"), link := some ("l1"), snippet := none },
       { title := none, link := some ("l2"), snippet := some ("sn2") }])
    (fun _ => CompletionOutcome.ok
      [{ message := { role := "assistant", content := "pick supplier one" } }])
    { material_name := "steel", quantity := 10, location := "Delhi", budget := 3.5 }
    [{ title := some ("S1"), link := some ("l1"), snippet := none },
     { title := none, link := some ("l2"), snippet := some ("sn2") }]
    { material := "steel", location := "Delhi", budget := 3.5,
      recommendation := "pick supplier one",
      top_suppliers := [{ title := some ("S1"), link := some ("l1"), snippet := none },
                        { title := none, link := some ("l2"), snippet := some ("sn2") }] }
    rfl (by decide) rfl

/-- C2: for every valid request where the search provider returns zero
organic results, the handler raises HTTP 404 with detail No suppliers
found., and the completion provider is never invoked. -/
theorem claim_C2 (sp : SearchCall → SearchOutcome)
    (cp : CompletionParams → CompletionOutcome) (req : ProcurementRequest)
    (hs : sp (mkSearchCall req.material_name req.location) = SearchOutcome.ok []) :
    (recommend_procurement sp cp req).2 =
      Except.error (PyError.httpException 404 ("No suppliers found.")) ∧
    (recommend_procurement sp cp req).1.completionCalls = [] := by
  rw [recommend_of_search_nil sp cp req hs]
  exact ⟨rfl, rfl⟩

/-- C2 witness: concrete run with an empty organic-results list. -/
theorem claim_C2_witness :
    (recommend_procurement (fun _ => SearchOutcome.ok [])
        (fun _ => CompletionOutcome.ok [])
        { material_name := "steel", quantity := 10, location := "Delhi", budget := 3.5 }).2 =
      Except.error (PyError.httpException 404 ("No suppliers found.")) ∧
    (recommend_procurement (fun _ => SearchOutcome.ok [])
        (fun _ => CompletionOutcome.ok [])
        { material_name := "steel", quantity := 10, location := "Delhi", budget := 3.5 }).1.completionCalls = [] :=
  claim_C2 (fun _ => SearchOutcome.ok []) (fun _ => CompletionOutcome.ok [])
    { material_name := "steel", quantity := 10, location := "Delhi", budget := 3.5 } rfl

/-- C3: for every request in which the outbound search call raises any
exception, the handler raises HTTP 500 whose detail contains the original
exception text verbatim, and no completion call is made. -/
theorem claim_C3 (sp : SearchCall → SearchOutcome)
    (cp : CompletionParams → CompletionOutcome) (req : ProcurementRequest)
    (e : String)
    (hs : sp (mkSearchCall req.material_name req.location) = SearchOutcome.exn e) :
    (recommend_procurement sp cp req).2 =
      Except.error (PyError.httpException 500 ("SERPAPI error: " ++ e)) ∧
    (∃ pre post, ("SERPAPI error: " ++ e) = pre ++ e ++ post) ∧
    (recommend_procurement sp cp req).1.completionCalls = [] := by
  rw [recommend_of_search_exn sp cp req e hs]
  exact ⟨rfl, ⟨"SERPAPI error: ", "", by simp⟩, rfl⟩

/-- C3 witness: concrete run where the search call raises a connection
error. -/
theorem claim_C3_witness :
    (recommend_procurement (fun _ => SearchOutcome.exn ("connection refused"))
        (fun _ => CompletionOutcome.ok [])
        { material_name := "steel", quantity := 10, location := "Delhi", budget := 3.5 }).2 =
      Except.error (PyError.httpException 500 ("SERPAPI error: " ++ "connection refused")) ∧
    (∃ pre post, ("SERPAPI error: " ++ "connection refused") = pre ++ "connection refused" ++ post) ∧
    (recommend_procurement (fun _ => SearchOutcome.exn ("connection refused"))
        (fun _ => CompletionOutcome.ok [])
        { material_name := "steel", quantity := 10, location := "Delhi", budget := 3.5 }).1.completionCalls = [] :=
  claim_C3 (fun _ => SearchOutcome.exn ("connection refused"))
    (fun _ => CompletionOutcome.ok [])
    { material_name := "steel", quantity := 10, location := "Delhi", budget := 3.5 }
    "connection refused" rfl

/-- C4: for every request in which the completion call raises an
exception, the exception leaves the handler uncaught: the outcome is the
raw error, not a structured HTTPException, and no response body is
returned. -/
theorem claim_C4 (sp : SearchCall → SearchOutcome)
    (cp : CompletionParams → CompletionOutcome) (req : ProcurementRequest)
    (o : OrganicResult) (os : List OrganicResult) (m : String)
    (hs : sp (mkSearchCall req.material_name req.location) = SearchOutcome.ok (o :: os))
    (hc : ∀ p, cp p = CompletionOutcome.exn m) :
    (recommend_procurement sp cp req).2 = Except.error (PyError.uncaught m) ∧
    (∀ status detail, (recommend_procurement sp cp req).2 ≠
      Except.error (PyError.httpException status detail)) ∧
    (∀ resp, (recommend_procurement sp cp req).2 ≠ Except.ok resp) := by
  rw [recommend_of_ok_exn sp cp req o os m hs (hc _)]
  refine ⟨rfl, ?_, ?_⟩
  · intro status detail h
    simp at h
  · intro resp h
    simp at h

/-- C4 witness: concrete run where the completion call raises. -/
theorem claim_C4_witness :
    (recommend_procurement
        (fun _ => SearchOutcome.ok [{ title := some ("S1"), link := none, snippet := none }])
        (fun _ => CompletionOutcome.exn ("rate limit"))
        { material_name := "steel", quantity := 10, location := "Delhi", budget := 3.5 }).2 =
      Except.error (PyError.uncaught ("rate limit")) ∧
    (∀ status detail,
      (recommend_procurement
        (fun _ => SearchOutcome.ok [{ title := some ("S1"), link := none, snippet := none }])
        (fun _ => CompletionOutcome.exn ("rate limit"))
        { material_name := "steel", quantity := 10, location := "Delhi", budget := 3.5 }).2 ≠
        Except.error (PyError.httpException status detail)) ∧
    (∀ resp,
      (recommend_procurement
        (fun _ => SearchOutcome.ok [{ title := some ("S1"), link := none, snippet := none }])
        (fun _ => CompletionOutcome.exn ("rate limit"))
        { material_name := "steel", quantity := 10, location := "Delhi", budget := 3.5 }).2 ≠
        Except.ok resp) :=
  claim_C4
    (fun _ => SearchOutcome.ok [{ title := some ("S1"), link := none, snippet := none }])
    (fun _ => CompletionOutcome.exn ("rate limit"))
    { material_name := "steel", quantity := 10, location := "Delhi", budget := 3.5 }
    { title := some ("S1"), link := none, snippet := none } [] "rate limit"
    rfl (fun _ => rfl)

/-- C5: for every 200 response, material, location and budget are the
request fields unchanged, top_suppliers is exactly the sequence returned
by supplier lookup, and recommendation is the content of the first choice
returned by the completion call, verbatim. -/
theorem claim_C5 (sp : SearchCall → SearchOutcome)
    (cp : CompletionParams → CompletionOutcome) (req : ProcurementRequest)
    (resp : RecommendationResponse)
    (hr : (recommend_procurement sp cp req).2 = Except.ok resp) :
    resp.material = req.material_name ∧
    resp.location = req.location ∧
    resp.budget = req.budget ∧
    (get_supplier_data sp req.material_name req.location).2 = Except.ok resp.top_suppliers ∧
    ∃ c cs, cp (mkParams req.material_name req.quantity req.location req.budget
        resp.top_suppliers) = CompletionOutcome.ok (c :: cs) ∧
      resp.recommendation = c.message.content := by
  cases hsp : sp (mkSearchCall req.material_name req.location) with
  | exn e =>
    rw [recommend_of_search_exn sp cp req e hsp] at hr
    simp at hr
  | ok organic =>
    cases organic with
    | nil =>
      rw [recommend_of_search_nil sp cp req hsp] at hr
      simp at hr
    | cons o os =>
      cases hc : cp (mkParams req.material_name req.quantity req.location
          req.budget (((o :: os).take 5).map toSupplier)) with
      | exn e =>
        rw [recommend_of_ok_exn sp cp req o os e hsp hc] at hr
        simp at hr
      | ok choices =>
        cases choices with
        | nil =>
          rw [recommend_of_ok_nochoice sp cp req o os hsp hc] at hr
          simp at hr
        | cons c cs =>
          rw [recommend_of_ok_ok sp cp req o os c cs hsp hc] at hr
          simp only [Except.ok.injEq] at hr
          subst hr
          refine ⟨rfl, rfl, rfl, ?_, c, cs, ?_, rfl⟩
          · simp [get_supplier_data, hsp]
          · exact hc

/-- Concrete one-supplier scenario used by several witnesses. -/
def wReq : ProcurementRequest :=
  { material_name := "steel", quantity := 10, location := "Delhi", budget := 3.5 }

/-- Concrete organic-results list with a single entry. -/
def wOrganic : List OrganicResult :=
  [{ title := some ("S1"), link := none, snippet := none }]

/-- Search oracle returning the one-entry organic list. -/
def wSearch : SearchCall → SearchOutcome :=
  fun _ => SearchOutcome.ok wOrganic

/-- Completion oracle returning one choice with fixed content. -/
def wCompletion : CompletionParams → CompletionOutcome :=
  fun _ => CompletionOutcome.ok
    [{ message := { role := "assistant", content := "go with S1" } }]

/-- The 200 response produced on the concrete one-supplier scenario. -/
def wResp : RecommendationResponse :=
  { material := "steel", location := "Delhi", budget := 3.5,
    recommendation := "go with S1",
    top_suppliers := [{ title := some ("S1"), link := none, snippet := none }] }

/-- C5 witness: concrete successful run checked against the request
fields, the supplier lookup output and the completion content. -/
theorem claim_C5_witness :
    wResp.material = wReq.material_name ∧
    wResp.location = wReq.location ∧
    wResp.budget = wReq.budget ∧
    (get_supplier_data wSearch wReq.material_name wReq.location).2 =
      Except.ok wResp.top_suppliers ∧
    ∃ c cs, wCompletion (mkParams wReq.material_name wReq.quantity
        wReq.location wReq.budget wResp.top_suppliers) =
        CompletionOutcome.ok (c :: cs) ∧
      wResp.recommendation = c.message.content :=
  claim_C5 wSearch wCompletion wReq wResp rfl

/-- C6: every request issues exactly one outbound search call, whose query
string is exactly the material name, the text suppliers in, and the
location, with num 5; there is no retry or second page fetch. -/
theorem claim_C6 (sp : SearchCall → SearchOutcome)
    (cp : CompletionParams → CompletionOutcome) (req : ProcurementRequest) :
    (recommend_procurement sp cp req).1.searchCalls =
      [{ q := req.material_name ++ " suppliers in " ++ req.location, num := 5 }] := by
  cases hsp : sp (mkSearchCall req.material_name req.location) with
  | exn e => rw [recommend_of_search_exn sp cp req e hsp]; rfl
  | ok organic =>
    cases organic with
    | nil => rw [recommend_of_search_nil sp cp req hsp]; rfl
    | cons o os =>
      cases hc : cp (mkParams req.material_name req.quantity req.location
          req.budget (((o :: os).take 5).map toSupplier)) with
      | exn e => rw [recommend_of_ok_exn sp cp req o os e hsp hc]; rfl
      | ok choices =>
        cases choices with
        | nil => rw [recommend_of_ok_nochoice sp cp req o os hsp hc]; rfl
        | cons c cs => rw [recommend_of_ok_ok sp cp req o os c cs hsp hc]; rfl

/-- C7: the recommendation generator builds the single fixed-format prompt
(instruction, structured echo of material, quantity, location and budget,
one bullet line per supplier, the 4-item requested-output checklist) and
issues one completion call with the fixed system message, the fixed model
identifier, temperature 0.7 and max tokens 800; the handler never issues
more than one completion call per request. -/
theorem claim_C7 (cp : CompletionParams → CompletionOutcome)
    (material : String) (quantity : Int) (location : String) (budget : Float)
    (suppliers : List SupplierResult) :
    (generate_recommendation cp material quantity location budget suppliers).1 =
      { model := "llama-3.1-8b-instant"
        messages :=
          [{ role := "system", content := "You are an expert AI procurement assistant." },
           { role := "user",
             content :=
               "\n    You are an AI procurement strategist for POWERGRID.\n    Analyze the following inputs and recommend a procurement plan.\n" ++
               "\n    Material: " ++ material ++
               "\n    Required Quantity: " ++ toString quantity ++
               "\n    Project Location: " ++ location ++
               "\n    Budget: â‚¹" ++ toString budget ++
               "\n\n    Available supplier data:\n    " ++
               String.intercalate ("\n") (suppliers.map (fun s =>
                 "- " ++ optStr s.title ++ ": " ++ optStr s.link ++
                 " (" ++ optStr s.snippet ++ ")")) ++
               ("\n" ++ "\n    Provide:\n    1. Top 3 suppliers ranked by relevance.\n    2. Recommended order quantity split (if applicable).\n    3. Estimated total cost and delivery timeframe.\n    4. Any risk factors or negotiation suggestions.\n    ") }]
        temperature := 0.7
        maxTokens := 800 } ∧
    ∀ (sp : SearchCall → SearchOutcome) (req : ProcurementRequest),
      (recommend_procurement sp cp req).1.completionCalls.length ≤ 1 := by
  constructor
  · rfl
  · intro sp req
    cases hsp : sp (mkSearchCall req.material_name req.location) with
    | exn e => rw [recommend_of_search_exn sp cp req e hsp]; simp
    | ok organic =>
      cases organic with
      | nil => rw [recommend_of_search_nil sp cp req hsp]; simp
      | cons o os =>
        cases hc : cp (mkParams req.material_name req.quantity req.location
            req.budget (((o :: os).take 5).map toSupplier)) with
        | exn e => rw [recommend_of_ok_exn sp cp req o os e hsp hc]; simp
        | ok choices =>
          cases choices with
          | nil => rw [recommend_of_ok_nochoice sp cp req o os hsp hc]; simp
          | cons c cs => rw [recommend_of_ok_ok sp cp req o os c cs hsp hc]; simp

/-! Request validation.  The schema check itself is performed by the web
framework before the endpoint body runs, so it is not part of src; it is
modelled from the spec below. -/

/-- A JSON value, as delivered to the framework validator. -/
inductive Json where
  | str (s : String)
  | int (n : Int)
  | num (x : Float)
  | bool (b : Bool)
  | null
  | arr (elems : List Json)
  | obj (fields : List (String × Json))

/-- First value bound to a key in a JSON object. -/
def lookupField : List (String × Json) → String → Option Json
  | [], _ => none
  | (k, v) :: rest, key => if k = key then some v else lookupField rest key

/-- A field read as a string, rejecting absence and any other type. -/
def asStr : Option Json → Option String
  | some (Json.str s) => some s
  | _ => none

/-- A field read as an integer, rejecting absence and any other type. -/
def asInt : Option Json → Option Int
  | some (Json.int n) => some n
  | _ => none

/-- A field read as a floating-point number; an integer literal is
accepted and widened, anything else is rejected. -/
def asFloat : Option Json → Option Float
  | some (Json.num x) => some x
  | some (Json.int n) => some (Float.ofInt n)
  | _ => none

/-- Modelled from the spec: the request validation the web framework runs
against the ProcurementRequest schema before the endpoint body (the
framework itself is not part of src).  Per the spec it parses and
type-checks the four fields, with no business rules beyond presence and
type; in particular the quantity field is any integer, unchecked for
sign. -/
def parseProcurementRequest : Json → Option ProcurementRequest
  | Json.obj fields =>
    match asStr (lookupField fields ("material_name")),
          asInt (lookupField fields ("quantity")),
          asStr (lookupField fields ("location")),
          asFloat (lookupField fields ("budget")) with
    | some m, some q, some l, some b =>
        some { material_name := m, quantity := q, location := l, budget := b }
    | _, _, _, _ => none
  | _ => none

/-- Modelled from the spec: the full route behaviour including framework
validation, which rejects a malformed body with a 422 response before the
endpoint body runs, so that neither provider is invoked. -/
def handleRequest (sp : SearchCall → SearchOutcome)
    (cp : CompletionParams → CompletionOutcome) (body : Json) :
    Trace × Except PyError RecommendationResponse :=
  match parseProcurementRequest body with
  | none =>
      ({ searchCalls := [], completionCalls := [] },
       Except.error (PyError.httpException 422 ("Unprocessable Entity")))
  | some req => recommend_procurement sp cp req

/-- C8: a body missing a required field or with a wrongly typed field is
rejected with a 422 before either provider is invoked, and validation is
presence and type only: any integer quantity, negative values included,
passes validation. -/
theorem claim_C8 (sp : SearchCall → SearchOutcome)
    (cp : CompletionParams → CompletionOutcome) (body : Json) :
    (parseProcurementRequest body = none →
      handleRequest sp cp body =
        ({ searchCalls := [], completionCalls := [] },
         Except.error (PyError.httpException 422 ("Unprocessable Entity")))) ∧
    (∀ (m l : String) (q : Int) (b : Float),
      parseProcurementRequest
        (Json.obj [(("material_name"), Json.str m), (("quantity"), Json.int q),
                   (("location"), Json.str l), (("budget"), Json.num b)]) =
        some { material_name := m, quantity := q, location := l, budget := b }) := by
  constructor
  · intro h
    simp [handleRequest, h]
  · intro m l q b
    rfl

/-- C8 witness: a body with a wrongly typed material_name and a missing
quantity is rejected with 422 and no provider call; a well-typed body with
the negative quantity -5 passes validation. -/
theorem claim_C8_witness :
    handleRequest wSearch wCompletion
        (Json.obj [(("material_name"), Json.int 3), (("location"), Json.str ("Delhi"))]) =
      ({ searchCalls := [], completionCalls := [] },
       Except.error (PyError.httpException 422 ("Unprocessable Entity"))) ∧
    parseProcurementRequest
        (Json.obj [(("material_name"), Json.str ("steel")), (("quantity"), Json.int (-5)),
                   (("location"), Json.str ("Delhi")), (("budget"), Json.num 12.5)]) =
      some { material_name := "steel", quantity := -5, location := "Delhi", budget := 12.5 } :=
  ⟨(claim_C8 wSearch wCompletion
      (Json.obj [(("material_name"), Json.int 3), (("location"), Json.str ("Delhi"))])).1 rfl,
   (claim_C8 wSearch wCompletion (Json.obj [])).2 "steel" "Delhi" (-5) 12.5⟩

/-! Scenario of C9: the copper-cable request with three organic results. -/

/-- The scenario request of the spec. -/
def scenarioReq : ProcurementRequest :=
  { material_name := "copper cable", quantity := 500, location := "Pune",
    budget := 200000 }

/-- Three organic results for the scenario. -/
def scenarioOrganic : List OrganicResult :=
  [{ title := some ("Supplier A"), link := some ("a.example"), snippet := some ("copper") },
   { title := some ("Supplier B"), link := some ("b.example"), snippet := none },
   { title := none, link := some ("c.example"), snippet := some ("cables") }]

/-- The supplier records derived from the scenario organic results. -/
def scenarioSuppliers : List SupplierResult :=
  scenarioOrganic.map toSupplier

/-- The 200 response produced on the scenario when the completion content
is the empty string. -/
def scenarioEmptyResp : RecommendationResponse :=
  { material := "copper cable", location := "Pune", budget := 200000,
    recommendation := "", top_suppliers := scenarioSuppliers }

/-- C9 counterexample: on the scenario input with three organic results, a
completion whose first choice has empty content still yields a 200
response, and its recommendation field is the empty string, so a 200
response does not guarantee a non-empty recommendation. -/
theorem claim_C9_counterexample :
    (recommend_procurement (fun _ => SearchOutcome.ok scenarioOrganic)
        (fun _ => CompletionOutcome.ok
          [{ message := { role := "assistant", content := "" } }])
        scenarioReq).2 = Except.ok scenarioEmptyResp ∧
    scenarioEmptyResp.recommendation = "" ∧
    scenarioEmptyResp.top_suppliers.length = 3 :=
  ⟨rfl, rfl, rfl⟩

/-- C9 (amended): for the scenario input with a search provider returning
three organic results and a completion call returning a first choice with
non-empty content, the response is 200 with top_suppliers of length 3, the
echoed material, location and budget, and a recommendation equal to that
content and hence non-empty.  (The code returns the model text verbatim,
so the recommendation is non-empty only when the completion content is.) -/
theorem claim_C9 (sp : SearchCall → SearchOutcome)
    (cp : CompletionParams → CompletionOutcome)
    (o1 o2 o3 : OrganicResult) (c : Choice) (cs : List Choice)
    (hs : sp (mkSearchCall scenarioReq.material_name scenarioReq.location) =
      SearchOutcome.ok [o1, o2, o3])
    (hcp : ∀ p, cp p = CompletionOutcome.ok (c :: cs))
    (hc : c.message.content ≠ "") :
    ∃ resp, (recommend_procurement sp cp scenarioReq).2 = Except.ok resp ∧
      resp.top_suppliers.length = 3 ∧
      resp.material = "copper cable" ∧
      resp.location = "Pune" ∧
      resp.budget = scenarioReq.budget ∧
      resp.recommendation = c.message.content ∧
      resp.recommendation ≠ "" := by
  have h := recommend_of_ok_ok sp cp scenarioReq o1 [o2, o3] c cs hs (hcp _)
  refine ⟨{ material := scenarioReq.material_name, location := scenarioReq.location,
            budget := scenarioReq.budget, recommendation := c.message.content,
            top_suppliers := (([o1, o2, o3].take 5).map toSupplier) },
          ?_, rfl, rfl, rfl, rfl, rfl, hc⟩
  rw [h]

/-- C9 witness: the scenario run with a non-empty completion content. -/
theorem claim_C9_witness :
    ∃ resp, (recommend_procurement (fun _ => SearchOutcome.ok scenarioOrganic)
        (fun _ => CompletionOutcome.ok
          [{ message := { role := "assistant", content := "Choose Supplier A" } }])
        scenarioReq).2 = Except.ok resp ∧
      resp.top_suppliers.length = 3 ∧
      resp.material = "copper cable" ∧
      resp.location = "Pune" ∧
      resp.budget = scenarioReq.budget ∧
      resp.recommendation = "Choose Supplier A" ∧
      resp.recommendation ≠ "" :=
  claim_C9 (fun _ => SearchOutcome.ok scenarioOrganic)
    (fun _ => CompletionOutcome.ok
      [{ message := { role := "assistant", content := "Choose Supplier A" } }])
    { title := some ("Supplier A"), link := some ("a.example"), snippet := some ("copper") }
    { title := some ("Supplier B"), link := some ("b.example"), snippet := none }
    { title := none, link := some ("c.example"), snippet := some ("cables") }
    { message := { role := "assistant", content := "Choose Supplier A" } } []
    rfl (fun _ => rfl) (by decide)

/-- C10: a supplier record carries the absent fields of its organic result
as none rather than dropping them, the prompt renderer prints an absent
field as the text None, and the prompt is built totally for every supplier
list: it always embeds the bullet summary between a fixed prefix and the
fixed checklist. -/
theorem claim_C10 (r : OrganicResult) (material : String) (quantity : Int)
    (location : String) (budget : Float) (suppliers : List SupplierResult) :
    (toSupplier r).title = r.title ∧
    (toSupplier r).link = r.link ∧
    (toSupplier r).snippet = r.snippet ∧
    optStr none = "None" ∧
    supplierLine { title := none, link := none, snippet := none } = "- None: None (None)" ∧
    ∃ pre post, promptText material quantity location budget suppliers =
      pre ++ supplierSummary suppliers ++ post := by
  refine ⟨rfl, rfl, rfl, rfl, rfl, ?_⟩
  exact ⟨promptHeader ++ "\n    Material: " ++ material ++
      "\n    Required Quantity: " ++ toString quantity ++
      "\n    Project Location: " ++ location ++
      "\n    Budget: â‚¹" ++ toString budget ++
      "\n\n    Available supplier data:\n    ",
    "\n" ++ promptChecklist, rfl⟩

end Procurement
